import Mathlib

/-!
# Verification of the Matcha dating-backend business rules

Shallow embedding of the backend's data model and request handlers
(`app/blueprints/browsing.py`, `chat.py`, `users.py`, `app/utils/fame.py`,
`app/sockets/events.py`) together with proofs of the specified properties.

Database tables become lists of rows; SQL queries become list operations;
request handlers become pure functions from a database state (plus request
data) to a status code and a new database state.  Python truthiness of
numeric values (`if x and ...`) is modelled explicitly (`0` and `None` are
falsy).  The transcendental functions used by the Haversine branch of the
distance computation are abstracted as function parameters, so every
definition stays computable.
-/

namespace Matcha

/-- Gender values accepted by the profile endpoint (`valid_genders = ['Male', 'Female']`). -/
inductive Gender where
  | male
  | female
deriving DecidableEq, Repr, Fintype

/-- Sexual-preference values accepted by the profile endpoint. -/
inductive Pref where
  | straight
  | gay
  | bisexual
deriving DecidableEq, Repr, Fintype

/-- A row of the `users` table (the columns the verified handlers read). -/
structure DBUser where
  id : Nat
  gender : Option Gender
  sexual_preference : Option Pref
  latitude : Option ℚ
  longitude : Option ℚ
  age : Option ℚ
  fame_rating : Option ℚ
  is_verified : Bool
deriving DecidableEq, Repr

/-- A row of the `visits` table: `visit_count` per visitor/visited/day. -/
structure Visit where
  visitor_id : Nat
  visited_id : Nat
  day : Nat
  visit_count : Nat
deriving DecidableEq, Repr

/-- The relational store: each table is a list of rows.  `images` keeps the
owning `user_id` of each image row, `user_tags` keeps `(user_id, tag_id)`
pairs, `messages` keeps `(sender_id, receiver_id, content)`, `notifications`
keeps `(user_id, type, source_user_id)`, and `emits` records every
socket emit as `(room, event)` so that live pushes are observable. -/
structure DB where
  users : List DBUser
  likes : List (Nat × Nat)
  blocks : List (Nat × Nat)
  images : List Nat
  user_tags : List (Nat × Nat)
  messages : List (Nat × Nat × String)
  notifications : List (Nat × String × Nat)
  visits : List Visit
  emits : List (String × String)
deriving DecidableEq, Repr

/-- `SELECT id FROM users WHERE id = %s` is non-empty. -/
def userExists (db : DB) (uid : Nat) : Bool :=
  db.users.any (fun u => u.id == uid)

/-- `events.py`: `send_notification` saves a notification row and emits a
`notification` event to the room `user_<user_id>`. -/
def send_notification (db : DB) (user_id : Nat) (notif_type : String)
    (source_user_id : Nat) : DB :=
  { db with
    notifications := db.notifications ++ [(user_id, notif_type, source_user_id)],
    emits := db.emits ++ [("user_" ++ toString user_id, "notification")] }

/-! ## Fame rating (`app/utils/fame.py`) -/

/-- `SELECT COUNT(*) FROM likes WHERE liked_id = %s`. -/
def count_likes_received (db : DB) (uid : Nat) : Nat :=
  (db.likes.filter (fun l => l.2 == uid)).length

/-- Python's `round(x, 2)` on the exact rational value. -/
def round2 (q : ℚ) : ℚ := (round (q * 100) : ℤ) / 100

/-- `calculate_fame_rating`: `round(min(5.0, likes / 10.0), 2)`. -/
def calculate_fame_rating (db : DB) (uid : Nat) : ℚ :=
  round2 (min 5 ((count_likes_received db uid : ℚ) / 10))

/-! ## Distance (`browsing.py: calculate_distance_km`)

The Haversine branch uses `sin`, `cos`, `asin`, `sqrt` from `math`; they are
abstracted as parameters (`trig`), keeping the definition computable.  Degree
to radian conversion uses an abstract value `piQ` for π. -/

structure Trig where
  sin : ℚ → ℚ
  cos : ℚ → ℚ
  asin : ℚ → ℚ
  sqrt : ℚ → ℚ
  piQ : ℚ

/-- The Haversine formula of `calculate_distance_km` (the non-`None` branch). -/
def haversine_km (t : Trig) (lat1 lon1 lat2 lon2 : ℚ) : ℚ :=
  let rad : ℚ → ℚ := fun d => d * t.piQ / 180
  let la1 := rad lat1
  let lo1 := rad lon1
  let la2 := rad lat2
  let lo2 := rad lon2
  let dlat := la2 - la1
  let dlon := lo2 - lo1
  let a := t.sin (dlat / 2) ^ 2 + t.cos la1 * t.cos la2 * t.sin (dlon / 2) ^ 2
  let c := 2 * t.asin (t.sqrt a)
  6371 * c

/-- `calculate_distance_km`: returns `9999.0` when any coordinate is `None`,
otherwise the Haversine distance. -/
def calculate_distance_km (t : Trig) (lat1 lon1 lat2 lon2 : Option ℚ) : ℚ :=
  match lat1, lon1, lat2, lon2 with
  | some a, some b, some c, some d => haversine_km t a b c d
  | _, _, _, _ => 9999

/-! ## Orientation filter (`browsing.py: build_orientation_filter`)

The function returns a SQL fragment; we embed its satisfaction relation: does
candidate row `u` satisfy the fragment built for a requester with gender
`my_gender` and preference `my_preference`?  SQL `=` on a `NULL` column never
matches, and the fragments explicitly allow `sexual_preference IS NULL`. -/

/-- `opposite = 'Female' if my_gender == 'Male' else 'Male'`. -/
def opposite : Gender → Gender
  | .male => .female
  | .female => .male

/-- Candidate preference accepted by a fragment listing `ps` or `IS NULL`. -/
def prefOk (ps : List Pref) (up : Option Pref) : Bool :=
  match up with
  | none => true
  | some p => ps.contains p

/-- Whether a candidate with gender `ug`/preference `up` satisfies the filter
fragment `build_orientation_filter my_gender my_preference`.  An empty
fragment (requester gender unset) is satisfied by everyone; a gender equality
against a `NULL` candidate gender never holds. -/
def matches_orientation_filter (my_gender : Option Gender) (my_preference : Option Pref)
    (ug : Option Gender) (up : Option Pref) : Bool :=
  match my_gender with
  | none => true
  | some g =>
    let opp := opposite g
    match my_preference.getD .bisexual with
    | .straight => ug == some opp && prefOk [.straight, .bisexual] up
    | .gay => ug == some g && prefOk [.gay, .bisexual] up
    | .bisexual =>
        (ug == some opp && prefOk [.straight, .bisexual] up)
          || (ug == some g && prefOk [.gay, .bisexual] up)

/-- Python's `str.strip()`: drop leading and trailing whitespace. -/
def pyStrip (s : String) : String :=
  ⟨((s.data.dropWhile Char.isWhitespace).reverse.dropWhile Char.isWhitespace).reverse⟩

/-! ## Connection and block checks (`chat.py`) -/

/-- `are_connected`: both like rows exist. -/
def are_connected (db : DB) (user_id_1 user_id_2 : Nat) : Bool :=
  db.likes.contains (user_id_1, user_id_2) && db.likes.contains (user_id_2, user_id_1)

/-- `is_blocked`: a block row exists in either direction. -/
def is_blocked (db : DB) (user_id_1 user_id_2 : Nat) : Bool :=
  db.blocks.any (fun b =>
    (b.1 == user_id_1 && b.2 == user_id_2) || (b.1 == user_id_2 && b.2 == user_id_1))

/-- Result of a REST handler: HTTP status, response message, next DB state. -/
structure HttpResult where
  status : Nat
  message : String
  db : DB
deriving Repr

/-- `chat.py: send_message` (`POST /api/chat/messages/<other_user_id>`).
`content` is `None` when the body has no `content` key.  On success the
message row is inserted, a `message` notification is sent, and a
`new_message` event is emitted to the receiver's room. -/
def send_message (db : DB) (current_user_id other_user_id : Nat)
    (content : Option String) : HttpResult :=
  match content with
  | none => ⟨400, "Message content required", db⟩
  | some raw =>
    let content := pyStrip raw
    if content = "" then ⟨400, "Message cannot be empty", db⟩
    else if content.length > 2000 then ⟨400, "Message too long (max 2000 characters)", db⟩
    else if current_user_id = other_user_id then ⟨400, "Cannot message yourself", db⟩
    else if ¬ userExists db other_user_id then ⟨404, "User not found", db⟩
    else if ¬ are_connected db current_user_id other_user_id then
      ⟨403, "You must be connected to chat", db⟩
    else if is_blocked db current_user_id other_user_id then
      ⟨403, "Cannot chat with blocked user", db⟩
    else
      let db := { db with
        messages := db.messages ++ [(current_user_id, other_user_id, content)] }
      let db := send_notification db other_user_id "message" current_user_id
      let db := { db with
        emits := db.emits ++ [("user_" ++ toString other_user_id, "new_message")] }
      ⟨201, "Message sent", db⟩

/-- Result of a socket handler: emitted error (if any) and next DB state. -/
structure SocketResult where
  error : Option String
  db : DB
deriving Repr

/-- `events.py: handle_send_message` (WebSocket `send_message`).
`sid_user` is the authenticated user for the connection (`connected_users`
lookup); `receiver_id` is `data.get('receiver_id')`.  Python truthiness:
`not receiver_id` is true for `None` and `0`, `not content` for the empty
string after `strip`. -/
def handle_send_message (db : DB) (sid_user : Option Nat)
    (receiver_id : Option Nat) (raw_content : String) : SocketResult :=
  match sid_user with
  | none => ⟨some "Not authenticated", db⟩
  | some user_id =>
    let content := pyStrip raw_content
    if receiver_id = none ∨ receiver_id = some 0 ∨ content = "" then
      ⟨some "Missing receiver_id or content", db⟩
    else if content.length > 2000 then ⟨some "Message too long", db⟩
    else
      let receiver := receiver_id.getD 0
      if ¬ (db.likes.contains (user_id, receiver) && db.likes.contains (receiver, user_id)) then
        ⟨some "You must be connected to chat", db⟩
      else if is_blocked db user_id receiver then
        ⟨some "Cannot chat with blocked user", db⟩
      else
        let db := { db with messages := db.messages ++ [(user_id, receiver, content)] }
        let db := { db with
          emits := db.emits ++ [("user_" ++ toString receiver, "new_message")] }
        let db := send_notification db receiver "message" user_id
        ⟨none, db⟩

/-! ## Blocking (`users.py: block_user`) -/

/-- `POST /api/users/<target_user_id>/block`: inserts a block row and removes
any likes between the pair in both directions. -/
def block_user (db : DB) (current_user_id target_user_id : Nat) : HttpResult :=
  if current_user_id = target_user_id then ⟨400, "Cannot block yourself", db⟩
  else if ¬ userExists db target_user_id then ⟨404, "User not found", db⟩
  else if db.blocks.contains (current_user_id, target_user_id) then
    ⟨200, "User already blocked", db⟩
  else
    let db := { db with blocks := db.blocks ++ [(current_user_id, target_user_id)] }
    let db := { db with
      likes := db.likes.filter (fun l =>
        !(l.1 == current_user_id && l.2 == target_user_id)) }
    let db := { db with
      likes := db.likes.filter (fun l =>
        !(l.1 == target_user_id && l.2 == current_user_id)) }
    ⟨200, "User blocked successfully", db⟩

/-! ## Liking (`users.py: toggle_like`) -/

/-- `update_user_fame`: recalculate and store the target's fame rating. -/
def update_user_fame (db : DB) (uid : Nat) : DB :=
  { db with
    users := db.users.map (fun u =>
      if u.id == uid then { u with fame_rating := some (calculate_fame_rating db uid) } else u) }

/-- `POST /api/users/<target_user_id>/like` with body `{"like": like_status}`.
Liking requires at least one image row for the liker; a fresh like inserts a
row, updates the target's fame and sends a `like` notification, plus `match`
notifications to both users when the like is mutual.  Unliking deletes the
row, updates fame and sends an `unlike` notification only when the target had
liked back. -/
def toggle_like (db : DB) (current_user_id target_user_id : Nat)
    (like_status : Bool) : HttpResult :=
  if current_user_id = target_user_id then ⟨400, "Cannot like your own profile", db⟩
  else if ¬ userExists db target_user_id then ⟨404, "User not found", db⟩
  else if is_blocked db current_user_id target_user_id then
    ⟨403, "User profile not available", db⟩
  else if ¬ db.images.contains current_user_id ∧ like_status then
    ⟨403, "You must have a profile picture to like other users", db⟩
  else
    let currently_liked := db.likes.contains (current_user_id, target_user_id)
    let liked_by_them := db.likes.contains (target_user_id, current_user_id)
    if like_status then
      if currently_liked then ⟨200, "Already liked this user", db⟩
      else
        let db := { db with likes := db.likes ++ [(current_user_id, target_user_id)] }
        let db := update_user_fame db target_user_id
        let db := send_notification db target_user_id "like" current_user_id
        let db :=
          if liked_by_them then
            let db := send_notification db target_user_id "match" current_user_id
            send_notification db current_user_id "match" target_user_id
          else db
        ⟨200, "Profile liked successfully", db⟩
    else
      if ¬ currently_liked then ⟨200, "Already unliked this user", db⟩
      else
        let db := { db with
          likes := db.likes.filter (fun l =>
            !(l.1 == current_user_id && l.2 == target_user_id)) }
        let db := update_user_fame db target_user_id
        let db :=
          if liked_by_them then send_notification db target_user_id "unlike" current_user_id
          else db
        ⟨200, "Profile unliked successfully", db⟩

/-! ## Profile visits (`users.py: view_user_profile`) -/

/-- `GET /api/users/<target_user_id>`: records the visit (one row per
visitor/visited/day, incrementing `visit_count` on repeats) and sends a
`visit` notification only when a new visit row is created. -/
def view_user_profile (db : DB) (today : Nat)
    (current_user_id target_user_id : Nat) : HttpResult :=
  if current_user_id = target_user_id then ⟨400, "Cannot view your own profile", db⟩
  else if ¬ userExists db target_user_id then ⟨404, "User not found", db⟩
  else if is_blocked db current_user_id target_user_id then
    ⟨403, "User profile not available", db⟩
  else if db.visits.any (fun v =>
      v.visitor_id == current_user_id && v.visited_id == target_user_id && v.day == today) then
    let db := { db with
      visits := db.visits.map (fun v =>
        if v.visitor_id == current_user_id && v.visited_id == target_user_id
            && v.day == today then
          { v with visit_count := v.visit_count + 1 }
        else v) }
    ⟨200, "profile", db⟩
  else
    let db := { db with
      visits := db.visits ++ [⟨current_user_id, target_user_id, today, 1⟩] }
    let db := send_notification db target_user_id "visit" current_user_id
    ⟨200, "profile", db⟩

/-! ## Browsing pipeline (`browsing.py: get_suggestions` and helpers) -/

/-- `get_blocked_user_ids`: every id appearing in a block row involving
`user_id` (both columns), with `user_id` itself discarded. -/
def get_blocked_user_ids (db : DB) (user_id : Nat) : List Nat :=
  (((db.blocks.filter (fun b => b.1 == user_id || b.2 == user_id)).flatMap
    (fun b => [b.1, b.2])).filter (fun i => i != user_id))

/-- `count_common_tags`: size of the SQL self-join of `user_tags` on
`tag_id` restricted to the two users. -/
def count_common_tags (db : DB) (user_id_1 user_id_2 : Nat) : Nat :=
  (((db.user_tags.filter (fun t => t.1 == user_id_1)).map (fun t1 =>
    (db.user_tags.filter (fun t2 => t2.1 == user_id_2 && t2.2 == t1.2)).length)).sum)

/-- Python's `round(x, 1)` on the exact rational value. -/
def round1 (q : ℚ) : ℚ := (round (q * 10) : ℤ) / 10

/-- A processed suggestion entry (the dictionary built in STEP 6, restricted
to the fields that filtering and sorting read). -/
structure PUser where
  id : Nat
  age : Option ℚ
  distance_km : ℚ
  fame_rating : ℚ
  common_tags_count : Nat
deriving DecidableEq, Repr

/-- Python truthiness of an optional numeric request parameter:
`None` and `0` are falsy. -/
def otruthy (v : Option ℚ) : Bool :=
  match v with
  | none => false
  | some x => x != 0

/-- `apply_filters`: each range check fires only when both the bound and the
user's value are truthy (Python `if bound and value and value < bound`). -/
def apply_filters (users : List PUser) (min_age max_age max_distance min_fame max_fame : Option ℚ) :
    List PUser :=
  users.filter (fun u =>
    !(otruthy min_age && otruthy u.age && decide (u.age.getD 0 < min_age.getD 0))
    && !(otruthy max_age && otruthy u.age && decide (max_age.getD 0 < u.age.getD 0))
    && !(otruthy max_distance && u.distance_km != 0
          && decide (max_distance.getD 0 < u.distance_km))
    && !(otruthy min_fame && u.fame_rating != 0 && decide (u.fame_rating < min_fame.getD 0))
    && !(otruthy max_fame && u.fame_rating != 0 && decide (max_fame.getD 0 < u.fame_rating)))

/-- `sort_users`'s `field_map` plus dictionary lookup: the sort key of a user
for a given `sort_by` string (unknown fields fall back to `distance_km`). -/
def sort_key (u : PUser) (sort_by : String) : Option ℚ :=
  if sort_by = "age" then u.age
  else if sort_by = "fame_rating" then some u.fame_rating
  else if sort_by = "common_tags" then some (u.common_tags_count : ℚ)
  else some u.distance_km

/-- Ascending comparison used by `sorted` with `reverse=False`: a `None` key
becomes `float('inf')`, so `None` sorts after every value. -/
def ascLe : Option ℚ → Option ℚ → Bool
  | none, none => true
  | none, some _ => false
  | some _, none => true
  | some x, some y => x ≤ y

/-- Descending comparison used by `sorted` with `reverse=True`: a `None` key
becomes `float('-inf')`, so after reversal `None` still sorts last. -/
def descLe : Option ℚ → Option ℚ → Bool
  | none, none => true
  | none, some _ => false
  | some _, none => true
  | some x, some y => y ≤ x

/-- The element comparison of `sorted(users, key=sort_key)`. -/
def ascCmp (sort_by : String) (a b : PUser) : Bool :=
  ascLe (sort_key a sort_by) (sort_key b sort_by)

/-- The element comparison of `sorted(users, key=sort_key, reverse=True)`. -/
def descCmp (sort_by : String) (a b : PUser) : Bool :=
  descLe (sort_key a sort_by) (sort_key b sort_by)

/-- `sort_users`: stable sort by the mapped field, `None` keys last, order
reversed when `order == 'desc'`. -/
def sort_users (users : List PUser) (sort_by order : String) : List PUser :=
  if order = "desc" then users.mergeSort (descCmp sort_by)
  else users.mergeSort (ascCmp sort_by)

/-- STEP 4: the SQL gender fragment as a predicate on a candidate row.
Search mode (`gender_filter` present) uses the explicit filter; browsing mode
uses the orientation filter built from the requester's row. -/
def gender_filter_matches (gender_filter : Option String) (me : DBUser)
    (u : DBUser) : Bool :=
  match gender_filter with
  | some gf =>
    if gf = "all" then true
    else if gf = "Male" then u.gender == some .male
    else if gf = "Female" then u.gender == some .female
    else true
  | none =>
      matches_orientation_filter me.gender me.sexual_preference u.gender u.sexual_preference

/-- STEP 6 for one candidate row: skip blocked users, skip tag-filter misses,
otherwise build the processed entry (distance, fame coercion, common tags). -/
def process_user (db : DB) (t : Trig) (current_user_id : Nat)
    (my_lat my_lon : Option ℚ) (blocked_ids : List Nat) (filter_tag_ids : List Nat)
    (u : DBUser) : Option PUser :=
  if blocked_ids.contains u.id then none
  else
    let distance := calculate_distance_km t my_lat my_lon u.latitude u.longitude
    let common_tags := count_common_tags db current_user_id u.id
    if filter_tag_ids ≠ [] ∧
        ¬ filter_tag_ids.any (fun tid =>
          db.user_tags.any (fun r => r.1 == u.id && r.2 == tid)) then none
    else
      some
        { id := u.id
          age := u.age
          distance_km := round1 distance
          fame_rating := match u.fame_rating with
            | some f => if f ≠ 0 then f else 0
            | none => 0
          common_tags_count := common_tags }

/-- Request parameters of `GET /api/browsing`. -/
structure BrowseParams where
  gender_filter : Option String
  sort_by : String
  order : String
  min_age : Option ℚ
  max_age : Option ℚ
  max_distance : Option ℚ
  min_fame : Option ℚ
  max_fame : Option ℚ
  filter_tag_ids : List Nat
  page : Nat
  limit : Nat

/-- STEPs 5–6: candidate rows (`id != me`, verified, gender fragment,
`ORDER BY u.id`) mapped through `process_user`. -/
def processed_users (db : DB) (t : Trig) (current_user_id : Nat)
    (me : DBUser) (p : BrowseParams) : List PUser :=
  let blocked_ids := get_blocked_user_ids db current_user_id
  let candidates := (db.users.filter (fun u =>
    u.id != current_user_id && u.is_verified
      && gender_filter_matches p.gender_filter me u)).mergeSort
    (fun a b => a.id ≤ b.id)
  candidates.filterMap
    (process_user db t current_user_id me.latitude me.longitude blocked_ids p.filter_tag_ids)

/-- `get_suggestions`: the page of users returned for a request (STEPs 5–9).
`me` must be the requester's row; limit capping and mode selection happen in
the handler before these steps. -/
def get_suggestions (db : DB) (t : Trig) (current_user_id : Nat)
    (me : DBUser) (p : BrowseParams) : List PUser :=
  let processed := processed_users db t current_user_id me p
  let filtered := apply_filters processed p.min_age p.max_age p.max_distance p.min_fame p.max_fame
  let sorted := sort_users filtered p.sort_by p.order
  ((sorted.drop ((p.page - 1) * p.limit)).take p.limit)

/-! ## Concrete states and parameters used by witnesses -/

/-- An empty database. -/
def dbEmpty : DB := ⟨[], [], [], [], [], [], [], [], []⟩

/-- A database in which user 1 has received 50 likes. -/
def dbLikes50 : DB :=
  { dbEmpty with likes := (List.range 50).map (fun i => (i + 2, 1)) }

/-- A bare verified user row with a given id. -/
def mkUser (i : Nat) : DBUser := ⟨i, none, none, none, none, none, none, true⟩

/-- Users 1 and 2 with mutual likes. -/
def dbMutual : DB :=
  { dbEmpty with users := [mkUser 1, mkUser 2], likes := [(1, 2), (2, 1)] }

/-- Users 1 and 2, user 1 likes user 2, nobody has an image. -/
def dbNoImage : DB :=
  { dbEmpty with users := [mkUser 1, mkUser 2], likes := [(1, 2)] }

/-- Users 1 and 2, nothing else: the browsing witness state. -/
def dbBrowse : DB := { dbEmpty with users := [mkUser 1, mkUser 2] }

/-- Default browsing parameters: browsing mode, sort by distance ascending,
no numeric filters, first page of twenty. -/
def browseDefaults : BrowseParams :=
  ⟨none, "distance", "asc", none, none, none, none, none, [], 1, 20⟩

/-- A placeholder transcendental-function pack (the `None` branch of the
distance computation never consults it). -/
def trigId : Trig := ⟨id, id, id, id, 0⟩

/-- A verified candidate row with no stored location. -/
def userNoLoc : DBUser := ⟨2, none, none, none, none, none, none, true⟩

/-! ## Lemmas -/

/-- `round(·, 2)` is the identity on `min 5 (L/10)` for a natural `L`. -/
lemma round2_min_five (L : ℕ) : round2 (min 5 ((L : ℚ) / 10)) = min 5 ((L : ℚ) / 10) := by
  rcases le_total ((L : ℚ) / 10) 5 with h | h
  · rw [min_eq_right h]
    unfold round2
    have h10 : (L : ℚ) / 10 * 100 = ((10 * (L : ℤ) : ℤ) : ℚ) := by push_cast; ring
    rw [h10, round_intCast]
    push_cast; ring
  · rw [min_eq_left h]
    unfold round2
    have h5 : (5 : ℚ) * 100 = ((500 : ℤ) : ℚ) := by norm_num
    rw [h5, round_intCast]
    norm_num

/-- `round(9999.0, 1) = 9999.0`. -/
lemma round1_9999 : round1 9999 = 9999 := by
  unfold round1
  have h9 : (9999 : ℚ) * 10 = ((99990 : ℤ) : ℚ) := by norm_num
  rw [h9, round_intCast]
  norm_num

/-- The distance computation returns `9999` whenever a coordinate is `None`. -/
lemma calculate_distance_km_of_none (t : Trig) (lat1 lon1 lat2 lon2 : Option ℚ)
    (h : lat1 = none ∨ lon1 = none ∨ lat2 = none ∨ lon2 = none) :
    calculate_distance_km t lat1 lon1 lat2 lon2 = 9999 := by
  cases lat1 <;> cases lon1 <;> cases lat2 <;> cases lon2 <;>
    simp_all [calculate_distance_km]

/-! ## Claims -/

/-- C2: `calculate_fame_rating` returns exactly `min(5.0, L/10)` where `L` is
the number of like rows with the user as liked party; with 50 or more likes
received the rating is exactly `5.0`, and with none it is `0`. -/
theorem fame_rating_formula (db : DB) (uid : Nat) :
    calculate_fame_rating db uid = min 5 ((count_likes_received db uid : ℚ) / 10)
      ∧ (50 ≤ count_likes_received db uid → calculate_fame_rating db uid = 5)
      ∧ (count_likes_received db uid = 0 → calculate_fame_rating db uid = 0) := by
  have h1 : calculate_fame_rating db uid
      = min 5 ((count_likes_received db uid : ℚ) / 10) := round2_min_five _
  refine ⟨h1, ?_, ?_⟩
  · intro h50
    rw [h1, min_eq_left]
    have : (50 : ℚ) ≤ (count_likes_received db uid : ℚ) := by exact_mod_cast h50
    linarith
  · intro h0
    rw [h1, h0]
    norm_num

/-- Witness for C2: user 1 of `dbLikes50` has 50 likes received and rating
exactly 5; in the empty database the rating is 0. -/
theorem fame_rating_formula_witness :
    calculate_fame_rating dbLikes50 1 = 5 ∧ calculate_fame_rating dbEmpty 1 = 0 :=
  ⟨(fame_rating_formula dbLikes50 1).2.1 (by decide),
   (fame_rating_formula dbEmpty 1).2.2 (by decide)⟩

/-- C4 counterexample: the orientation filter is not symmetric once unset
genders are considered.  A requester with no gender builds an empty filter
that a straight male candidate satisfies, while the straight male's filter
(`gender = 'Female'`) is not satisfied by the gender-less user. -/
theorem orientation_filter_not_symmetric :
    matches_orientation_filter none none (some .male) (some .straight) = true
      ∧ matches_orientation_filter (some .male) (some .straight) none none = false := by
  decide

/-- C4 (amended): for every pair of users whose gender fields are either both
set or both unset, the orientation filter is symmetric: B satisfies the
filter built for A iff A satisfies the filter built for B. -/
theorem orientation_filter_symmetric (ag bg : Option Gender) (ap bp : Option Pref)
    (h : ag.isSome ↔ bg.isSome) :
    matches_orientation_filter ag ap bg bp = matches_orientation_filter bg bp ag ap := by
  revert h
  revert ag bg ap bp
  decide

/-- Witness for C4: a straight male and a straight female mutually satisfy
each other's filters. -/
theorem orientation_filter_symmetric_witness :
    matches_orientation_filter (some .male) (some .straight) (some .female) (some .straight)
      = matches_orientation_filter (some .female) (some .straight) (some .male) (some .straight) :=
  orientation_filter_symmetric (some .male) (some .female) (some .straight) (some .straight)
    (by decide)

/-- C10: `calculate_distance_km` returns exactly `9999.0` whenever one of the
four coordinates is `None`, and consequently every candidate processed by the
browsing pipeline whose stored location is missing is assigned
`distance_km = 9999.0`. -/
theorem distance_missing_coordinates :
    (∀ (t : Trig) (lat1 lon1 lat2 lon2 : Option ℚ),
        lat1 = none ∨ lon1 = none ∨ lat2 = none ∨ lon2 = none →
        calculate_distance_km t lat1 lon1 lat2 lon2 = 9999)
      ∧ (∀ (db : DB) (t : Trig) (cur : Nat) (my_lat my_lon : Option ℚ)
          (blocked : List Nat) (ftags : List Nat) (u : DBUser) (p : PUser),
          process_user db t cur my_lat my_lon blocked ftags u = some p →
          u.latitude = none ∨ u.longitude = none →
          p.distance_km = 9999) := by
  constructor
  · exact calculate_distance_km_of_none
  · intro db t cur my_lat my_lon blocked ftags u p hp hcoord
    unfold process_user at hp
    split at hp
    · exact absurd hp (by simp)
    · split at hp
      · exact absurd hp (by simp)
      · have hd : calculate_distance_km t my_lat my_lon u.latitude u.longitude = 9999 :=
          calculate_distance_km_of_none t my_lat my_lon u.latitude u.longitude
            (by rcases hcoord with h | h
                · exact Or.inr (Or.inr (Or.inl h))
                · exact Or.inr (Or.inr (Or.inr h)))
        rw [Option.some_inj] at hp
        rw [← hp]
        simp only [hd]
        exact round1_9999

/-- Witness for C10: a concrete call with a missing latitude returns 9999,
and a candidate with no stored location is processed to distance 9999. -/
theorem distance_missing_coordinates_witness :
    calculate_distance_km trigId none (some 1) (some 2) (some 3) = 9999
      ∧ (⟨2, none, 9999, 0, 0⟩ : PUser).distance_km = 9999 :=
  ⟨distance_missing_coordinates.1 trigId none (some 1) (some 2) (some 3) (Or.inl rfl),
   distance_missing_coordinates.2 dbEmpty trigId 1 none none [] [] userNoLoc
     ⟨2, none, 9999, 0, 0⟩
     (by simp [process_user, userNoLoc, dbEmpty, calculate_distance_km,
           count_common_tags, round1_9999])
     (Or.inl rfl)⟩

/-- C3: a block request answered `200 / 'User blocked successfully'` leaves a
block row from blocker to target and no like row in either direction between
the pair. -/
theorem block_inserts_block_and_removes_likes (db : DB) (cur tgt : Nat)
    (h : (block_user db cur tgt).message = "User blocked successfully") :
    (block_user db cur tgt).status = 200
      ∧ (cur, tgt) ∈ (block_user db cur tgt).db.blocks
      ∧ (cur, tgt) ∉ (block_user db cur tgt).db.likes
      ∧ (tgt, cur) ∉ (block_user db cur tgt).db.likes := by
  unfold block_user at h ⊢
  split_ifs at h ⊢
  all_goals first
    | (exfalso; revert h; simp; done)
    | exact ⟨rfl, by simp, by simp [List.mem_filter], by simp [List.mem_filter]⟩

/-- Witness for C3: blocking user 2 from user 1 in a database where the two
like each other removes both likes and records the block. -/
theorem block_inserts_block_and_removes_likes_witness :
    (block_user dbMutual 1 2).status = 200
      ∧ (1, 2) ∈ (block_user dbMutual 1 2).db.blocks
      ∧ (1, 2) ∉ (block_user dbMutual 1 2).db.likes
      ∧ (2, 1) ∉ (block_user dbMutual 1 2).db.likes :=
  block_inserts_block_and_removes_likes dbMutual 1 2 (by decide)

/-- C7: with the target existing, distinct and unblocked, a like request from
a user owning no image row is refused with HTTP 403 and leaves the likes
table unchanged, while an unlike request succeeds (HTTP 200) without any
image. -/
theorem like_requires_image (db : DB) (cur tgt : Nat)
    (hne : cur ≠ tgt) (hex : userExists db tgt = true)
    (hnb : is_blocked db cur tgt = false)
    (himg : ¬ db.images.contains cur) :
    ((toggle_like db cur tgt true).status = 403
      ∧ (toggle_like db cur tgt true).db.likes = db.likes)
    ∧ (toggle_like db cur tgt false).status = 200 := by
  have hb : ¬is_blocked db cur tgt = true := by simp [hnb]
  constructor
  · unfold toggle_like
    rw [if_neg hne, if_neg (not_not_intro hex), if_neg hb,
      if_pos (show ¬db.images.contains cur = true ∧ (true : Bool) = true from ⟨himg, rfl⟩)]
    exact ⟨rfl, rfl⟩
  · unfold toggle_like
    rw [if_neg hne, if_neg (not_not_intro hex), if_neg hb,
      if_neg (show ¬(¬db.images.contains cur = true ∧ (false : Bool) = true) from
        fun hc => by simp at hc),
      if_neg (show ¬((false : Bool) = true) from by simp)]
    split
    · rfl
    · rfl

/-- Witness for C7: in a database where user 2 likes user 1 and user 1 has no
image, user 1's like request is refused and the unlike request succeeds. -/
theorem like_requires_image_witness :
    ((toggle_like dbNoImage 1 2 true).status = 403
      ∧ (toggle_like dbNoImage 1 2 true).db.likes = dbNoImage.likes)
    ∧ (toggle_like dbNoImage 1 2 false).status = 200 :=
  like_requires_image dbNoImage 1 2 (by decide) (by decide) (by decide) (by decide)

/-- C1: for a message-send request between distinct existing users (ids are
positive `SERIAL` values) with valid content, the message row is persisted
iff the two users have mutual likes and no block exists in either direction;
otherwise the REST handler answers 403 (resp. the socket handler emits
`error`) and no message row is inserted.  Covers both
`POST /api/chat/messages/<other>` and the WebSocket `send_message` event. -/
theorem message_requires_mutual_like_and_no_block (db : DB) (cur oth : Nat) (c : String)
    (hne : cur ≠ oth) (h0 : oth ≠ 0) (hex : userExists db oth = true)
    (hc1 : pyStrip c ≠ "") (hc2 : (pyStrip c).length ≤ 2000) :
    ((are_connected db cur oth = true ∧ is_blocked db cur oth = false) →
      (send_message db cur oth (some c)).status = 201
      ∧ (send_message db cur oth (some c)).db.messages
          = db.messages ++ [(cur, oth, pyStrip c)]
      ∧ (handle_send_message db (some cur) (some oth) c).error = none
      ∧ (handle_send_message db (some cur) (some oth) c).db.messages
          = db.messages ++ [(cur, oth, pyStrip c)])
    ∧ (¬(are_connected db cur oth = true ∧ is_blocked db cur oth = false) →
      (send_message db cur oth (some c)).status = 403
      ∧ (send_message db cur oth (some c)).db.messages = db.messages
      ∧ (handle_send_message db (some cur) (some oth) c).error ≠ none
      ∧ (handle_send_message db (some cur) (some oth) c).db.messages = db.messages) := by
  have hlen : ¬(2000 < (pyStrip c).length) := not_lt.mpr hc2
  constructor
  · rintro ⟨hconn, hnb⟩
    have hnb' : ¬is_blocked db cur oth = true := by simp [hnb]
    obtain ⟨hm1, hm2⟩ : (cur, oth) ∈ db.likes ∧ (oth, cur) ∈ db.likes := by
      simpa [are_connected] using hconn
    refine ⟨?_, ?_, ?_, ?_⟩
    · simp [send_message, hc1, hlen, hne, hex, hconn, hnb']
    · simp [send_message, send_notification, hc1, hlen, hne, hex, hconn, hnb']
    · simp [handle_send_message, hc1, hlen, h0, hm1, hm2, hnb']
    · simp [handle_send_message, send_notification, hc1, hlen, h0, hm1, hm2, hnb']
  · intro hn
    by_cases hconn : are_connected db cur oth = true
    · have hb : is_blocked db cur oth = true := by
        cases hbv : is_blocked db cur oth with
        | false => exact absurd ⟨hconn, hbv⟩ hn
        | true => rfl
      obtain ⟨hm1, hm2⟩ : (cur, oth) ∈ db.likes ∧ (oth, cur) ∈ db.likes := by
        simpa [are_connected] using hconn
      refine ⟨?_, ?_, ?_, ?_⟩
      · simp [send_message, hc1, hlen, hne, hex, hconn, hb]
      · simp [send_message, hc1, hlen, hne, hex, hconn, hb]
      · simp [handle_send_message, hc1, hlen, h0, hm1, hm2, hb]
      · simp [handle_send_message, hc1, hlen, h0, hm1, hm2, hb]
    · have hmem : (cur, oth) ∈ db.likes → (oth, cur) ∉ db.likes := by
        intro h1 h2
        exact hconn (by simp [are_connected, h1, h2])
      have hconn' : are_connected db cur oth = false := by
        simpa using hconn
      refine ⟨?_, ?_, ?_, ?_⟩
      · simp [send_message, hc1, hlen, hne, hex, hconn']
      · simp [send_message, hc1, hlen, hne, hex, hconn']
      · simp [handle_send_message, hc1, hlen, h0]
        rw [if_pos hmem]
        simp
      · simp [handle_send_message, hc1, hlen, h0]
        rw [if_pos hmem]

/-- Witness for C1: in `dbMutual` (mutual likes, no blocks) the message from
user 1 to user 2 is persisted by the REST handler and by the socket handler. -/
theorem message_requires_mutual_like_and_no_block_witness :
    (send_message dbMutual 1 2 (some "hi")).status = 201
      ∧ (send_message dbMutual 1 2 (some "hi")).db.messages
          = dbMutual.messages ++ [(1, 2, "hi")]
      ∧ (handle_send_message dbMutual (some 1) (some 2) "hi").error = none
      ∧ (handle_send_message dbMutual (some 1) (some 2) "hi").db.messages
          = dbMutual.messages ++ [(1, 2, "hi")] := by
  have hs : pyStrip "hi" = "hi" := by decide
  have h := (message_requires_mutual_like_and_no_block dbMutual 1 2 "hi"
    (by decide) (by decide) (by decide) (by simp [hs]) (by rw [hs]; decide)).1
    ⟨by decide, by decide⟩
  simpa [hs] using h

/-! ## Sorting lemmas -/

lemma ascLe_trans : ∀ a b c : Option ℚ,
    ascLe a b = true → ascLe b c = true → ascLe a c = true := by
  intro a b c h1 h2
  cases a <;> cases b <;> cases c <;> simp_all [ascLe]
  exact le_trans h1 h2

lemma ascLe_total : ∀ a b : Option ℚ, (ascLe a b || ascLe b a) = true := by
  intro a b
  cases a <;> cases b <;> simp [ascLe]
  exact le_total _ _

lemma descLe_trans : ∀ a b c : Option ℚ,
    descLe a b = true → descLe b c = true → descLe a c = true := by
  intro a b c h1 h2
  cases a <;> cases b <;> cases c <;> simp_all [descLe]
  exact le_trans h2 h1

lemma descLe_total : ∀ a b : Option ℚ, (descLe a b || descLe b a) = true := by
  intro a b
  cases a <;> cases b <;> simp [descLe]
  exact le_total _ _

lemma ascLe_spec (k1 k2 : Option ℚ) (h : ascLe k1 k2 = true) :
    (k1 = none → k2 = none) ∧ (∀ x y, k1 = some x → k2 = some y → x ≤ y) := by
  cases k1 <;> cases k2 <;> simp_all [ascLe]

lemma descLe_spec (k1 k2 : Option ℚ) (h : descLe k1 k2 = true) :
    (k1 = none → k2 = none) ∧ (∀ x y, k1 = some x → k2 = some y → y ≤ x) := by
  cases k1 <;> cases k2 <;> simp_all [descLe]

/-- Sorting does not change membership (any field, any order). -/
lemma mem_sort_users {u : PUser} {l : List PUser} {s o : String} :
    u ∈ sort_users l s o ↔ u ∈ l := by
  unfold sort_users
  split
  · exact (List.mergeSort_perm l _).mem_iff
  · exact (List.mergeSort_perm l _).mem_iff

/-! ## Claims about filtering and sorting -/

/-- C5 counterexample: with `min_fame = 1` given, a user whose `fame_rating`
is `0.0` (falsy in Python) survives `apply_filters` even though its rating is
below the requested minimum. -/
theorem apply_filters_fame_counterexample :
    apply_filters [⟨1, none, 5, 0, 0⟩] none none none (some 1) none
        = [⟨1, none, 5, 0, 0⟩]
      ∧ (⟨1, none, 5, 0, 0⟩ : PUser).fame_rating < 1 := by
  constructor
  · rfl
  · norm_num

/-- C5 (amended): `apply_filters` enforces each numeric bound only in its
truthy regime — when the supplied bound is nonzero and the user's field value
is nonzero (Python treats `0`/`None` as false): then every surviving user's
age lies within `[min_age, max_age]`, its distance is at most `max_distance`,
and its fame rating lies within `[min_fame, max_fame]`. -/
theorem apply_filters_respects_nonzero_bounds (users : List PUser)
    (min_age max_age max_distance min_fame max_fame : Option ℚ) (u : PUser)
    (hu : u ∈ apply_filters users min_age max_age max_distance min_fame max_fame) :
    (∀ v a, min_age = some v → v ≠ 0 → u.age = some a → a ≠ 0 → v ≤ a)
    ∧ (∀ v a, max_age = some v → v ≠ 0 → u.age = some a → a ≠ 0 → a ≤ v)
    ∧ (∀ v, max_distance = some v → v ≠ 0 → u.distance_km ≠ 0 → u.distance_km ≤ v)
    ∧ (∀ v, min_fame = some v → v ≠ 0 → u.fame_rating ≠ 0 → v ≤ u.fame_rating)
    ∧ (∀ v, max_fame = some v → v ≠ 0 → u.fame_rating ≠ 0 → u.fame_rating ≤ v) := by
  rw [apply_filters, List.mem_filter] at hu
  obtain ⟨-, hp⟩ := hu
  simp only [Bool.and_eq_true, Bool.not_eq_true'] at hp
  obtain ⟨⟨⟨⟨h1, h2⟩, h3⟩, h4⟩, h5⟩ := hp
  refine ⟨?_, ?_, ?_, ?_, ?_⟩
  · rintro v a rfl hv0 ha ha0
    simp [otruthy, ha, hv0, ha0] at h1
    exact h1
  · rintro v a rfl hv0 ha ha0
    simp [otruthy, ha, hv0, ha0] at h2
    exact h2
  · rintro v rfl hv0 hd0
    simp [otruthy, hv0, hd0] at h3
    exact h3
  · rintro v rfl hv0 hf0
    simp [otruthy, hv0, hf0] at h4
    exact h4
  · rintro v rfl hv0 hf0
    simp [otruthy, hv0, hf0] at h5
    exact h5

/-- Witness for C5 (amended): a user with nonzero fame 2 surviving the
`min_fame = 1` filter indeed has fame at least 1. -/
theorem apply_filters_respects_nonzero_bounds_witness :
    (1 : ℚ) ≤ (⟨1, some 30, 5, 2, 0⟩ : PUser).fame_rating :=
  (apply_filters_respects_nonzero_bounds [⟨1, some 30, 5, 2, 0⟩]
    none none none (some 1) none ⟨1, some 30, 5, 2, 0⟩
    (by norm_num [apply_filters, otruthy])).2.2.2.1 1 rfl (by norm_num) (by norm_num)

set_option linter.unusedVariables false in
/-- C6: for every user list, every sort field and both orders, `sort_users`
returns a permutation of its input in which every `None`-valued user follows
every non-`None`-valued one, and the non-`None` values appear in ascending
(for `'asc'`) or descending (for `'desc'`) order of the sort field. -/
theorem sort_users_sorted (users : List PUser) (sort_by order : String)
    (hs : sort_by = "distance" ∨ sort_by = "age" ∨ sort_by = "fame_rating"
      ∨ sort_by = "common_tags")
    (ho : order = "asc" ∨ order = "desc") :
    (sort_users users sort_by order).Perm users
    ∧ (sort_users users sort_by order).Pairwise (fun a b =>
        (sort_key a sort_by = none → sort_key b sort_by = none)
        ∧ ∀ x y, sort_key a sort_by = some x → sort_key b sort_by = some y →
            (if order = "desc" then y ≤ x else x ≤ y)) := by
  clear hs
  rcases ho with h | h <;> subst h
  · have hno : ("asc" : String) ≠ "desc" := by decide
    constructor
    · unfold sort_users
      rw [if_neg hno]
      exact List.mergeSort_perm users _
    · unfold sort_users
      rw [if_neg hno]
      have hp := List.sorted_mergeSort
        (show ∀ a b c : PUser, ascCmp sort_by a b → ascCmp sort_by b c →
            ascCmp sort_by a c from
          fun a b c h1 h2 => ascLe_trans _ _ _ h1 h2)
        (show ∀ a b : PUser, (ascCmp sort_by a b || ascCmp sort_by b a) = true from
          fun a b => ascLe_total _ _) users
      refine hp.imp ?_
      intro a b hab
      obtain ⟨hn, hv⟩ := ascLe_spec _ _ hab
      exact ⟨hn, fun x y hx hy => by rw [if_neg hno]; exact hv x y hx hy⟩
  · constructor
    · unfold sort_users
      rw [if_pos rfl]
      exact List.mergeSort_perm users _
    · unfold sort_users
      rw [if_pos rfl]
      have hp := List.sorted_mergeSort
        (show ∀ a b c : PUser, descCmp sort_by a b → descCmp sort_by b c →
            descCmp sort_by a c from
          fun a b c h1 h2 => descLe_trans _ _ _ h1 h2)
        (show ∀ a b : PUser, (descCmp sort_by a b || descCmp sort_by b a) = true from
          fun a b => descLe_total _ _) users
      refine hp.imp ?_
      intro a b hab
      obtain ⟨hn, hv⟩ := descLe_spec _ _ hab
      exact ⟨hn, fun x y hx hy => by rw [if_pos rfl]; exact hv x y hx hy⟩

/-- Witness for C6: sorting two concrete users by distance ascending. -/
theorem sort_users_sorted_witness :
    (sort_users [⟨1, none, 5, 0, 0⟩, ⟨2, none, 3, 0, 0⟩] "distance" "asc").Perm
        [⟨1, none, 5, 0, 0⟩, ⟨2, none, 3, 0, 0⟩]
    ∧ (sort_users [⟨1, none, 5, 0, 0⟩, ⟨2, none, 3, 0, 0⟩] "distance" "asc").Pairwise
        (fun a b => (sort_key a "distance" = none → sort_key b "distance" = none)
          ∧ ∀ x y, sort_key a "distance" = some x → sort_key b "distance" = some y →
              (if ("asc" : String) = "desc" then y ≤ x else x ≤ y)) :=
  sort_users_sorted [⟨1, none, 5, 0, 0⟩, ⟨2, none, 3, 0, 0⟩] "distance" "asc"
    (Or.inl rfl) (Or.inl rfl)

/-! ## Blocked-user exclusion in browsing -/

/-- Any id on the other side of a block row involving `cur` lands in
`get_blocked_user_ids db cur` (unless it is `cur` itself). -/
lemma mem_get_blocked_user_ids {db : DB} {cur x : Nat} (b : Nat × Nat)
    (hb : b ∈ db.blocks)
    (hx : (b.1 = cur ∧ b.2 = x) ∨ (b.1 = x ∧ b.2 = cur)) (hxc : x ≠ cur) :
    x ∈ get_blocked_user_ids db cur := by
  unfold get_blocked_user_ids
  rw [List.mem_filter]
  refine ⟨?_, by simpa using hxc⟩
  rw [List.mem_flatMap]
  refine ⟨b, ?_, ?_⟩
  · rw [List.mem_filter]
    exact ⟨hb, by rcases hx with ⟨h1, h2⟩ | ⟨h1, h2⟩ <;> simp [h1, h2]⟩
  · rcases hx with ⟨h1, h2⟩ | ⟨h1, h2⟩ <;> simp [h1, h2]

/-- A processed entry always carries its source row's id, and that id
passed the blocked-ids check. -/
lemma process_user_some {db : DB} {t : Trig} {cur : Nat} {mlat mlon : Option ℚ}
    {blocked ftags : List Nat} {a : DBUser} {u : PUser}
    (h : process_user db t cur mlat mlon blocked ftags a = some u) :
    blocked.contains a.id = false ∧ u.id = a.id := by
  unfold process_user at h
  split at h
  · exact absurd h (by simp)
  · next hc =>
    split at h
    · exact absurd h (by simp)
    · refine ⟨Bool.not_eq_true _ ▸ by simpa using hc, ?_⟩
      rw [← Option.some_inj.mp h]

/-- Membership in the final suggestion page implies membership in the
processed list. -/
lemma mem_get_suggestions {db : DB} {t : Trig} {cur : Nat} {me : DBUser}
    {p : BrowseParams} {u : PUser} (hu : u ∈ get_suggestions db t cur me p) :
    u ∈ processed_users db t cur me p := by
  unfold get_suggestions at hu
  have h1 := List.mem_of_mem_drop (List.mem_of_mem_take hu)
  have h2 := mem_sort_users.mp h1
  rw [apply_filters, List.mem_filter] at h2
  exact h2.1

/-- C9: no user blocked in either direction relative to the requester appears
in the browsing output, in browsing mode or search mode (the mode only
changes the candidate gender filter). -/
theorem browsing_excludes_blocked (db : DB) (t : Trig) (cur : Nat) (me : DBUser)
    (p : BrowseParams) (u : PUser) (hu : u ∈ get_suggestions db t cur me p) :
    u.id ≠ cur
      ∧ ∀ b ∈ db.blocks, ¬((b.1 = cur ∧ b.2 = u.id) ∨ (b.1 = u.id ∧ b.2 = cur)) := by
  have hp := mem_get_suggestions hu
  unfold processed_users at hp
  obtain ⟨a, ha, hfa⟩ := List.mem_filterMap.mp hp
  have hcand := (List.mergeSort_perm _ _).mem_iff.mp ha
  rw [List.mem_filter] at hcand
  obtain ⟨-, hpred⟩ := hcand
  simp only [Bool.and_eq_true, bne_iff_ne, ne_eq] at hpred
  obtain ⟨⟨haid, -⟩, -⟩ := hpred
  obtain ⟨hnotblocked, hid⟩ := process_user_some hfa
  constructor
  · rw [hid]
    exact haid
  · intro b hb hcontra
    have hmem : u.id ∈ get_blocked_user_ids db cur :=
      mem_get_blocked_user_ids b hb hcontra (hid ▸ haid)
    rw [hid] at hmem
    have hc : (get_blocked_user_ids db cur).contains a.id = true := by simpa using hmem
    rw [hnotblocked] at hc
    exact Bool.false_ne_true hc

/-- Witness for C9: a two-user database with no blocks produces a suggestion
whose id is distinct from the requester and blocked by no row. -/
theorem browsing_excludes_blocked_witness :
    (⟨2, none, 9999, 0, 0⟩ : PUser).id ≠ 1
      ∧ ∀ b ∈ dbBrowse.blocks,
        ¬((b.1 = 1 ∧ b.2 = (⟨2, none, 9999, 0, 0⟩ : PUser).id)
          ∨ (b.1 = (⟨2, none, 9999, 0, 0⟩ : PUser).id ∧ b.2 = 1)) :=
  browsing_excludes_blocked dbBrowse trigId 1 (mkUser 1) browseDefaults
    ⟨2, none, 9999, 0, 0⟩
    (by simp [get_suggestions, processed_users, sort_users, apply_filters,
          get_blocked_user_ids, process_user, count_common_tags, gender_filter_matches,
          matches_orientation_filter, calculate_distance_km, round1_9999,
          dbBrowse, dbEmpty, browseDefaults, mkUser, ascCmp, sort_key, otruthy])

/-! ## Notification fan-out -/

/-- C8 counterexample: an unlike by user 1 of user 2, where user 2 had not
liked user 1 back, succeeds (HTTP 200), removes the like row, and writes no
notification at all — contradicting "each unlike writes an 'unlike'
notification". -/
theorem unlike_without_match_no_notification :
    (toggle_like dbNoImage 1 2 false).status = 200
      ∧ (1, 2) ∉ (toggle_like dbNoImage 1 2 false).db.likes
      ∧ (toggle_like dbNoImage 1 2 false).db.notifications = [] := by
  refine ⟨rfl, ?_, rfl⟩
  decide

/-- C8 (amended): each successful fresh like writes a `like` notification for
the target (plus `match` notifications for both users when it makes the like
mutual); an unlike writes an `unlike` notification only when the target had
liked back, and writes none otherwise; a profile visit writes a `visit`
notification only when it is the first visit of the day, and none on a
repeat same-day visit; every persisted message — whether sent through the
REST handler or through the WebSocket handler — writes a `message`
notification; each written notification is also emitted to the target's room
`user_<target_id>`. -/
theorem notification_fanout (db : DB) (today cur tgt : Nat)
    (hne : cur ≠ tgt) (hex : userExists db tgt = true)
    (hnb : is_blocked db cur tgt = false) :
    (db.images.contains cur = true → db.likes.contains (cur, tgt) = false →
      (db.likes.contains (tgt, cur) = false →
        (toggle_like db cur tgt true).db.notifications
          = db.notifications ++ [(tgt, "like", cur)]
        ∧ ("user_" ++ toString tgt, "notification") ∈ (toggle_like db cur tgt true).db.emits)
      ∧ (db.likes.contains (tgt, cur) = true →
        (toggle_like db cur tgt true).db.notifications
          = db.notifications ++ [(tgt, "like", cur), (tgt, "match", cur), (cur, "match", tgt)]
        ∧ ("user_" ++ toString tgt, "notification") ∈ (toggle_like db cur tgt true).db.emits
        ∧ ("user_" ++ toString cur, "notification") ∈ (toggle_like db cur tgt true).db.emits))
    ∧ (db.likes.contains (cur, tgt) = true →
      (db.likes.contains (tgt, cur) = true →
        (toggle_like db cur tgt false).db.notifications
          = db.notifications ++ [(tgt, "unlike", cur)]
        ∧ ("user_" ++ toString tgt, "notification") ∈ (toggle_like db cur tgt false).db.emits)
      ∧ (db.likes.contains (tgt, cur) = false →
        (toggle_like db cur tgt false).db.notifications = db.notifications))
    ∧ ((db.visits.any (fun v =>
          v.visitor_id == cur && v.visited_id == tgt && v.day == today)) = false →
        (view_user_profile db today cur tgt).db.notifications
          = db.notifications ++ [(tgt, "visit", cur)]
        ∧ ("user_" ++ toString tgt, "notification")
            ∈ (view_user_profile db today cur tgt).db.emits)
    ∧ ((db.visits.any (fun v =>
          v.visitor_id == cur && v.visited_id == tgt && v.day == today)) = true →
        (view_user_profile db today cur tgt).db.notifications = db.notifications)
    ∧ (∀ c : String, (send_message db cur tgt (some c)).status = 201 →
        (send_message db cur tgt (some c)).db.notifications
          = db.notifications ++ [(tgt, "message", cur)]
        ∧ ("user_" ++ toString tgt, "notification")
            ∈ (send_message db cur tgt (some c)).db.emits)
    ∧ (∀ c : String, (handle_send_message db (some cur) (some tgt) c).error = none →
        (handle_send_message db (some cur) (some tgt) c).db.notifications
          = db.notifications ++ [(tgt, "message", cur)]
        ∧ ("user_" ++ toString tgt, "notification")
            ∈ (handle_send_message db (some cur) (some tgt) c).db.emits) := by
  have hnb' : ¬is_blocked db cur tgt = true := by simp [hnb]
  refine ⟨?_, ?_, ?_, ?_, ?_, ?_⟩
  · intro himg hnl
    have himg' : cur ∈ db.images := by simpa using himg
    have hnl' : (cur, tgt) ∉ db.likes := by simpa using hnl
    constructor
    · intro hnlb
      have hnlb' : (tgt, cur) ∉ db.likes := by simpa using hnlb
      constructor <;>
        simp [toggle_like, update_user_fame, send_notification, hne, hex, hnb',
          himg', hnl', hnlb']
    · intro hlb
      have hlb' : (tgt, cur) ∈ db.likes := by simpa using hlb
      refine ⟨?_, ?_, ?_⟩ <;>
        simp [toggle_like, update_user_fame, send_notification, hne, hex, hnb',
          himg', hnl', hlb']
  · intro hl
    have hl' : (cur, tgt) ∈ db.likes := by simpa using hl
    constructor
    · intro hlb
      have hlb' : (tgt, cur) ∈ db.likes := by simpa using hlb
      constructor <;>
        simp [toggle_like, update_user_fame, send_notification, hne, hex, hnb', hl', hlb']
    · intro hnlb
      have hnlb' : (tgt, cur) ∉ db.likes := by simpa using hnlb
      simp [toggle_like, update_user_fame, send_notification, hne, hex, hnb', hl', hnlb']
  · intro hnv
    constructor <;>
      simp [view_user_profile, send_notification, hne, hex, hnb', hnv]
  · intro hv
    simp [view_user_profile, send_notification, hne, hex, hnb', hv]
  · intro c h201
    by_cases h1 : pyStrip c = ""
    · exfalso
      simp [send_message, h1] at h201
    by_cases h2 : 2000 < (pyStrip c).length
    · exfalso
      simp [send_message, h1, h2] at h201
    by_cases h3 : userExists db tgt = true
    · by_cases h4 : are_connected db cur tgt = true
      · constructor <;>
          simp [send_message, send_notification, h1, h2, hne, h3, h4, hnb']
      · exfalso
        simp [send_message, h1, h2, hne, h3, h4] at h201
    · exfalso
      simp [send_message, h1, h2, hne, h3] at h201
  · intro c herr
    by_cases h1 : pyStrip c = ""
    · exfalso
      simp [handle_send_message, h1] at herr
    by_cases h0 : tgt = 0
    · exfalso
      simp [handle_send_message, h0] at herr
    by_cases h2 : 2000 < (pyStrip c).length
    · exfalso
      simp [handle_send_message, h1, h0, h2] at herr
    by_cases hm1 : (cur, tgt) ∈ db.likes
    · by_cases hm2 : (tgt, cur) ∈ db.likes
      · constructor <;>
          simp [handle_send_message, send_notification, h1, h0, h2, hm1, hm2, hnb']
      · exfalso
        simp [handle_send_message, h1, h0, h2, hm1, hm2] at herr
    · exfalso
      simp [handle_send_message, h1, h0, h2, hm1] at herr

/-- Witness for C8: in `dbMutual`, an unlike by user 1 writes an `unlike`
notification for user 2, a first visit writes a `visit` notification, and a
message persisted through the WebSocket handler writes a `message`
notification. -/
theorem notification_fanout_witness :
    (toggle_like dbMutual 1 2 false).db.notifications
        = dbMutual.notifications ++ [(2, "unlike", 1)]
      ∧ (view_user_profile dbMutual 0 1 2).db.notifications
        = dbMutual.notifications ++ [(2, "visit", 1)]
      ∧ (handle_send_message dbMutual (some 1) (some 2) "hi").db.notifications
        = dbMutual.notifications ++ [(2, "message", 1)] :=
  ⟨(((notification_fanout dbMutual 0 1 2 (by decide) (by decide) (by decide)).2.1
      (by decide)).1 (by decide)).1,
   ((notification_fanout dbMutual 0 1 2 (by decide) (by decide) (by decide)).2.2.1
      (by decide)).1,
   ((notification_fanout dbMutual 0 1 2 (by decide) (by decide) (by decide)).2.2.2.2.2
      "hi" (by decide)).1⟩

end Matcha
